import Mathlib

/-!
Shallow embedding of the MyBlog application (Flask blog platform) for
verification of its specification claims.

Sources embedded:
- src/app/models.py        : Post.generate_slug, Post.increment_views,
                             Tag.get_or_create, SiteSettings.get / SiteSettings.set,
                             User.check_password, the post_tags association table
- src/app/blog/routes.py   : allowed_file, save_image, view_post, create_post,
                             edit_post, delete_post, toggle_publish
- src/app/blog/forms.py    : PostForm validators
- src/app/auth/routes.py   : login
- src/config.py            : ALLOWED_EXTENSIONS

Timestamps are modelled as natural numbers supplied explicitly as a `now`
argument; nullable database columns are `Option` values; the database session
is passed as explicit lists of rows.
-/

namespace MyBlog

/-- The Python `str.lower()` method: lowercase every character. -/
def py_lower (s : String) : String :=
  ⟨s.data.map Char.toLower⟩

/-- The Python `str.strip()` method: drop whitespace from both ends. -/
def py_strip (s : String) : String :=
  ⟨((s.data.dropWhile Char.isWhitespace).reverse.dropWhile
      Char.isWhitespace).reverse⟩

/-- Splitting a character list at every occurrence of a separator character,
keeping empty groups, as the Python `str.split(sep)` method does. -/
def splitCharList (sep : Char) : List Char → List (List Char)
  | [] => [[]]
  | c :: cs =>
    match splitCharList sep cs with
    | [] => [[]]
    | g :: gs => if c = sep then [] :: g :: gs else (c :: g) :: gs

/-- The Python `str.split(sep)` method for a one-character separator. -/
def py_split (sep : Char) (s : String) : List String :=
  (splitCharList sep s.data).map List.asString

/-- Modelled from the spec (section 4.1): the third-party `slugify` library used
in models.py is not part of the repository; the spec describes it as
normalizing text into a lowercase, hyphen-separated ASCII token sequence,
stripping punctuation and collapsing whitespace and hyphens. -/
def slugify (s : String) : String :=
  List.asString
    (List.intercalate ['-']
      (((splitCharList ' '
            ((s.data.map Char.toLower).map
              fun c => if c.isAlphanum then c else ' '))).filter
        (fun g => g ≠ [])))

/-- The candidate sequence tried by `Post.generate_slug` (models.py lines 76-81):
candidate 0 is the base slug itself, candidate `k+1` is the Python f-string
`f"\x7bbase_slug\x7d-\x7bcounter\x7d"` with counter `k+1`. -/
def slugCand (base : String) : Nat → String
  | 0 => base
  | k + 1 => base ++ "-" ++ Nat.repr (k + 1)

/-- The `while` loop of `Post.generate_slug` (models.py lines 77-81), compiled
with explicit fuel: while the current slug is taken, move to
`base ++ "-" ++ counter` and increment the counter. -/
def slugLoop (base : String) (existing : List String) : Nat → String → Nat → String
  | 0, slug, _ => slug
  | fuel + 1, slug, counter =>
    if slug ∈ existing then
      slugLoop base existing fuel (base ++ "-" ++ Nat.repr counter) (counter + 1)
    else
      slug

/-- Embeds `Post.generate_slug` (models.py lines 74-82), applied to an already slugified
base (the source computes `base_slug = slugify(self.title)`) and the set of
slugs of existing posts (the source queries `Post.query.filter_by(slug=slug)`).
Fuel `existing.length + 1` suffices: among the first `existing.length + 1`
pairwise distinct candidates one is necessarily unused, so the loop exits
within that many iterations exactly as the unbounded source loop does. -/
def generate_slug (base : String) (existing : List String) : String :=
  slugLoop base existing (existing.length + 1) base 1

/-- A row of the `tags` table (models.py lines 101-107): unique `name` and
`slug`.  Surrogate ids are omitted at the object level; tags are identified by
their unique name. -/
structure Tag where
  name : String
  slug : String
deriving DecidableEq

/-- The normalization applied by `Tag.get_or_create` to the tag name:
the Python expression `name.lower().strip()` (models.py lines 112 and 114). -/
def normalize_tag_name (name : String) : String :=
  py_strip (py_lower name)

/-- Embeds `Tag.get_or_create` (models.py lines 109-116): look up the first tag whose
name equals the lowercased, trimmed input; if none exists, create a tag with
that name and slug `slugify(name)` and add it to the session.  Returns the
resolved tag together with the updated tag table. -/
def get_or_create (name : String) (tags : List Tag) : Tag × List Tag :=
  match tags.find? (fun t => t.name == normalize_tag_name name) with
  | some t => (t, tags)
  | none =>
    let t : Tag := ⟨normalize_tag_name name, slugify name⟩
    (t, tags ++ [t])

/-- The tag-name list parsed from the comma-separated form field
(routes.py line 244 and line 301):
`[t.strip() for t in form.tags.data.split(",") if t.strip()]`. -/
def parse_tags (s : String) : List String :=
  ((py_split ',' s).map py_strip).filter (fun t => t ≠ "")

/-- The tag-association loop of create_post / edit_post (routes.py lines
245-247 and 302-304): resolve each name through `Tag.get_or_create`, in order,
threading the tag table, and collect the resolved tags for the post. -/
def apply_tags (names : List String) (tags : List Tag) : List Tag × List Tag :=
  names.foldl
    (fun acc name =>
      let r := get_or_create name acc.2
      (acc.1 ++ [r.1], r.2))
    ([], tags)

/-- A row of the `posts` table (models.py lines 50-72).  `views` and
`published_at` are nullable columns; `tags` is the relationship through the
`post_tags` association table as seen on the ORM object. -/
structure Post where
  id : Nat
  title : String
  slug : String
  excerpt : String
  content : String
  cover_image : Option String
  is_published : Bool
  is_featured : Bool
  views : Option Nat
  created_at : Nat
  updated_at : Nat
  published_at : Option Nat
  author_id : Nat
  tags : List Tag
deriving DecidableEq

/-- The data submitted through `PostForm` (forms.py lines 9-27).
`cover_image` holds the filename of the uploaded file, if any. -/
structure PostForm where
  title : String
  excerpt : String
  content : String
  cover_image : Option String
  tags : String
  is_published : Bool
  is_featured : Bool
deriving DecidableEq

/-- The allowed upload extensions, `ALLOWED_EXTENSIONS` from config.py line 20. -/
def ALLOWED_EXTENSIONS : List String :=
  ["png", "jpg", "jpeg", "gif", "webp"]

/-- The Python expression `filename.rsplit(".", 1)[1]`: the part of the
filename after its last dot. -/
def file_ext (filename : String) : String :=
  List.asString ((splitCharList '.' filename.data).getLastD [])

/-- Embeds `allowed_file` (routes.py lines 23-26): the filename contains a dot and
its extension, lowercased, is in the allowed set. -/
def allowed_file (filename : String) : Bool :=
  filename.data.contains '.' &&
    ALLOWED_EXTENSIONS.contains (py_lower (file_ext filename))

/-- Embeds `save_image` (routes.py lines 29-38): if a file is present and allowed,
store it under `uuid4().hex` followed by a dot and the lowercased original
extension and return that stored name, else return `None`.  The random hex is
supplied as the `uuid` argument; the filesystem write is not modelled. -/
def save_image (file : Option String) (uuid : String) : Option String :=
  match file with
  | some filename =>
    if allowed_file filename then
      some (uuid ++ "." ++ py_lower (file_ext filename))
    else
      none
  | none => none

/-- The `PostForm` validators (forms.py lines 11-21): `DataRequired` plus
`Length(1, 200)` on the title, `Length(max=500)` on the excerpt, `FileAllowed`
on the cover image.  The `content` field deliberately carries no validator
(forms.py line 18). -/
def validate_post_form (form : PostForm) : Bool :=
  py_strip form.title ≠ "" &&
  (1 ≤ form.title.length && form.title.length ≤ 200) &&
  form.excerpt.length ≤ 500 &&
  (match form.cover_image with
   | some f => allowed_file f
   | none => true)

/-- The validated branch of `create_post` (routes.py lines 223-254): build the
post from the form, generate its slug against the existing slugs, store the
cover image, resolve tags, stamp `published_at` when created published.
`views` is the column default 0; `id`, `now` and `uuid` are supplied
explicitly.  Returns the new post, the updated posts table and the updated
tag table. -/
def create_post_body (posts : List Post) (tags : List Tag) (form : PostForm)
    (author_id : Nat) (id : Nat) (now : Nat) (uuid : String) :
    Post × List Post × List Tag :=
  let slug := generate_slug (slugify form.title) (posts.map Post.slug)
  let cover := save_image form.cover_image uuid
  let names := if form.tags == "" then [] else parse_tags form.tags
  let r := apply_tags names tags
  let post : Post :=
    { id := id
      title := form.title
      slug := slug
      excerpt := form.excerpt
      content := form.content
      cover_image := cover
      is_published := form.is_published
      is_featured := form.is_featured
      views := some 0
      created_at := now
      updated_at := now
      published_at := if form.is_published then some now else none
      author_id := author_id
      tags := r.1 }
  (post, posts ++ [post], r.2)

/-- Embeds `create_post` (routes.py lines 214-262): `form.validate_on_submit()`
gates the creation; on validation failure no post is created and the form is
re-rendered (`none`). -/
def create_post (posts : List Post) (tags : List Tag) (form : PostForm)
    (author_id : Nat) (id : Nat) (now : Nat) (uuid : String) :
    Option (Post × List Post × List Tag) :=
  if validate_post_form form then
    some (create_post_body posts tags form author_id id now uuid)
  else
    none

/-- The validated branch of `edit_post` (routes.py lines 275-308): update the
mutable fields in place (the slug is never touched), stamp `published_at` on a
false-to-true publish transition, replace the cover image only when a new one
is accepted, and fully replace the tag set.  `updated_at` is the ORM
`onupdate` timestamp. -/
def edit_post_body (post : Post) (tags : List Tag) (form : PostForm)
    (now : Nat) (uuid : String) : Post × List Tag :=
  let was_published := post.is_published
  let names := if form.tags == "" then [] else parse_tags form.tags
  let r := apply_tags names tags
  ({ post with
      title := form.title
      excerpt := form.excerpt
      content := form.content
      is_featured := form.is_featured
      is_published := form.is_published
      published_at :=
        if !was_published && form.is_published then some now else post.published_at
      cover_image :=
        match save_image form.cover_image uuid with
        | some fn => some fn
        | none => post.cover_image
      updated_at := now
      tags := r.1 },
   r.2)

/-- Embeds `edit_post` (routes.py lines 265-318): `form.validate_on_submit()` gates
the update; on validation failure the post is unchanged (`none`). -/
def edit_post (post : Post) (tags : List Tag) (form : PostForm)
    (now : Nat) (uuid : String) : Option (Post × List Tag) :=
  if validate_post_form form then
    some (edit_post_body post tags form now uuid)
  else
    none

/-- Embeds `toggle_publish` (routes.py lines 343-360): flip `is_published`; if now
published and `published_at` is unset, stamp it. -/
def toggle_publish (post : Post) (now : Nat) : Post :=
  let pub := !post.is_published
  { post with
      is_published := pub
      published_at :=
        if pub && post.published_at.isNone then some now else post.published_at
      updated_at := now }

/-- Embeds `Post.increment_views` (models.py lines 92-95): `views = (views or 0) + 1`,
treating the nullable column as 0 when unset. -/
def increment_views (post : Post) : Post :=
  { post with views := some (post.views.getD 0 + 1) }

/-- The lookup predicate of `view_post` (routes.py line 78):
`Post.query.filter_by(slug=slug, is_published=True)`. -/
def view_match (slug : String) (p : Post) : Bool :=
  p.slug == slug && p.is_published

/-- Embeds `view_post` (routes.py lines 75-96): 404 (`none`) when no published post
has the slug; otherwise increment the views of the matched row and return the
updated posts table. -/
def view_post (posts : List Post) (slug : String) : Option (List Post) :=
  match posts.find? (view_match slug) with
  | none => none
  | some _ =>
    some (posts.map fun p => if view_match slug p then increment_views p else p)

/-- Sequential repetition of `view_post`: viewing the same slug `n` times. -/
def viewN (slug : String) : Nat → List Post → Option (List Post)
  | 0, posts => some posts
  | n + 1, posts =>
    match view_post posts slug with
    | none => none
    | some posts1 => viewN slug n posts1

/-- A row of the `site_settings` table (models.py lines 122-129): unique key,
nullable text value. -/
def SiteSettings_get (key : String) (default : Option String)
    (settings : List (String × Option String)) : Option String :=
  match settings.find? (fun s => s.1 == key) with
  | some s => s.2
  | none => default

/-- Embeds `SiteSettings.set` (models.py lines 137-147): update the value of the
first row with the key if present, else insert a new row. -/
def SiteSettings_set (key : String) (value : Option String) :
    List (String × Option String) → List (String × Option String)
  | [] => [(key, value)]
  | s :: rest =>
    if s.1 == key then (key, value) :: rest
    else s :: SiteSettings_set key value rest

/-- A row of the `tags` table at the relational level, with its primary key,
for the delete-cascade claim. -/
structure TagRow where
  id : Nat
  name : String
  slug : String
deriving DecidableEq

/-- The persisted state relevant to deletion: the `posts` table, the `tags`
table, and the `post_tags` association table (models.py lines 12-15) whose
rows are (post_id, tag_id) pairs. -/
structure DB where
  posts : List Post
  tags : List TagRow
  post_tags : List (Nat × Nat)
deriving DecidableEq

/-- Embeds `delete_post` (routes.py lines 321-340) at the relational level:
`get_or_404` (`none` when the id is unknown), then `db.session.delete(post)`
removes the post row and, through the `post_tags` secondary relationship, all
association rows of that post; tag rows are untouched.  The cover-image file
removal is a filesystem side effect, not modelled. -/
def delete_post (db : DB) (pid : Nat) : Option DB :=
  match db.posts.find? (fun p => p.id == pid) with
  | none => none
  | some _ =>
    some
      { posts := db.posts.filter (fun p => p.id != pid)
        tags := db.tags
        post_tags := db.post_tags.filter (fun pt => pt.1 != pid) }

/-- A row of the `users` table (models.py lines 18-30), restricted to the
fields login reads. -/
structure User where
  username : String
  password_hash : String
  is_admin : Bool
deriving DecidableEq

/-- Modelled from the spec (section 4.4): werkzeug
`generate_password_hash` is a third-party library, described as computing a
salted hash of the plaintext; an injective stand-in suffices because the
claims depend only on `check_password` succeeding exactly on the password that
was set. -/
def generate_password_hash (password : String) : String :=
  "pbkdf2-model$" ++ password

/-- Embeds `User.check_password` (models.py lines 36-38) over the modelled hash. -/
def check_password (user : User) (password : String) : Bool :=
  generate_password_hash password == user.password_hash

/-- The outcome of the login route: the established session (the logged-in
username, if any), the flash message, and the redirect target. -/
structure LoginResult where
  session : Option String
  flash : String
  redirect : String
deriving DecidableEq

/-- The Python expression `next_page.startswith("/")` (auth/routes.py
line 34). -/
def starts_with_slash (s : String) : Bool :=
  match s.data with
  | '/' :: _ => true
  | _ => false

/-- Embeds `login` (auth/routes.py lines 11-38), validated-submission branch with no
pre-existing session: unknown user or wrong password flashes an error and
redirects back to the login page; a non-admin user with correct credentials is
refused with an access-denied flash and no session; an admin is logged in and
redirected to the `next` page when it starts with a slash, else to the
dashboard. -/
def login (users : List User) (username password : String)
    (next_page : Option String) : LoginResult :=
  match users.find? (fun u => u.username == username) with
  | none => ⟨none, "Invalid username or password", "auth.login"⟩
  | some user =>
    if !check_password user password then
      ⟨none, "Invalid username or password", "auth.login"⟩
    else if !user.is_admin then
      ⟨none, "Access denied. Admin privileges required.", "auth.login"⟩
    else
      ⟨some user.username, "Welcome back!",
        match next_page with
        | some np =>
          if starts_with_slash np then np else "blog.admin_dashboard"
        | none => "blog.admin_dashboard"⟩

/-!
Concrete fixtures used by witnesses and counterexamples below.
-/

/-- A valid draft submission: non-empty title, no tags, no cover, unpublished. -/
def exForm : PostForm :=
  { title := "Hi", excerpt := "", content := "Body", cover_image := none,
    tags := "", is_published := false, is_featured := false }

/-- The same submission with the publish box checked. -/
def exPubForm : PostForm :=
  { exForm with is_published := true }

/-- The draft post created from `exForm` at time 0. -/
def exPost : Post :=
  (create_post_body [] [] exForm 1 1 0 "u").1

/-- The published post created from `exPubForm` at time 0. -/
def exPubPost : Post :=
  (create_post_body [] [] exPubForm 1 1 0 "u").1

/-- The draft first published through toggle-publish at time 1. -/
def c1p1 : Post := toggle_publish exPost 1

/-- The post then unpublished through toggle-publish at time 2. -/
def c1p2 : Post := toggle_publish c1p1 2

/-- The post then re-published through an edit at time 3. -/
def c1p3 : Post := (edit_post_body c1p2 [] exPubForm 3 "u").1

/-- A submission whose body is empty but whose other fields validate. -/
def c8Form : PostForm :=
  { title := "Hello", excerpt := "", content := "", cover_image := none,
    tags := "", is_published := false, is_featured := false }

/-- A tag row referenced only by the post that is about to be deleted. -/
def exTagRow : TagRow := ⟨1, "python", "python"⟩

/-- A database with one post, one tag, and one association row. -/
def exDB : DB :=
  { posts := [exPost], tags := [exTagRow], post_tags := [(1, 1)] }

/-- The database after deleting post 1: the orphaned tag row remains. -/
def exDB2 : DB :=
  { posts := [], tags := [exTagRow], post_tags := [] }

/-- A non-admin user with a known password. -/
def exUser : User := ⟨"bob", generate_password_hash "pw", false⟩

/-!
Groundwork: decimal printing of naturals (`Nat.repr`) is injective.  This is
needed because the slug candidates `base-1`, `base-2`, … produced by
`generate_slug` must be pairwise distinct for the uniqueness-retry loop to
terminate on a fresh slug.
-/

/-- With enough fuel, the core digit printer agrees with the mathematical
digit expansion, most significant digit first. -/
theorem toDigitsCore_eq_digits (n : Nat) :
    ∀ (fuel : Nat) (ds : List Char), 0 < n → n < fuel →
      Nat.toDigitsCore 10 fuel n ds =
        ((Nat.digits 10 n).map Nat.digitChar).reverse ++ ds := by
  induction n using Nat.strong_induction_on with
  | _ n ih =>
    intro fuel ds hn hfuel
    obtain ⟨f, rfl⟩ : ∃ f, fuel = f + 1 := ⟨fuel - 1, by omega⟩
    rw [Nat.digits_def' (by norm_num : (1 : Nat) < 10) hn]
    simp only [Nat.toDigitsCore]
    by_cases h : n / 10 = 0
    · simp [h]
    · rw [if_neg h]
      have hlt : n / 10 < n := Nat.div_lt_self hn (by norm_num)
      rw [ih (n / 10) hlt f (Nat.digitChar (n % 10) :: ds)
        (Nat.pos_of_ne_zero h) (by omega)]
      simp

/-- For positive `n`, `Nat.repr n` is the reversed digit-character list. -/
theorem repr_eq_digits (n : Nat) (hn : 0 < n) :
    Nat.repr n = (((Nat.digits 10 n).map Nat.digitChar).reverse).asString := by
  show (Nat.toDigits 10 n).asString = _
  rw [Nat.toDigits, toDigitsCore_eq_digits n (n + 1) [] hn (by omega),
    List.append_nil]

/-- The digit characters of the ten decimal digits are pairwise distinct. -/
theorem digitChar_injOn :
    ∀ a, a < 10 → ∀ b, b < 10 → Nat.digitChar a = Nat.digitChar b → a = b := by
  decide

/-- Mapping `Nat.digitChar` over lists of decimal digits is injective. -/
theorem map_digitChar_injOn :
    ∀ (l1 l2 : List Nat), (∀ d ∈ l1, d < 10) → (∀ d ∈ l2, d < 10) →
      l1.map Nat.digitChar = l2.map Nat.digitChar → l1 = l2 := by
  intro l1
  induction l1 with
  | nil =>
    intro l2 _ _ h
    cases l2 with
    | nil => rfl
    | cons b t2 => simp at h
  | cons a t ihl =>
    intro l2 h1 h2 h
    cases l2 with
    | nil => simp at h
    | cons b t2 =>
      simp only [List.map_cons, List.cons.injEq] at h
      have hab := digitChar_injOn a (h1 a (by simp)) b (h2 b (by simp)) h.1
      subst hab
      rw [ihl t2 (fun d hd => h1 d (by simp [hd]))
        (fun d hd => h2 d (by simp [hd])) h.2]

/-- Packing a character list into a string is injective. -/
theorem asString_injective {l1 l2 : List Char} (h : l1.asString = l2.asString) :
    l1 = l2 :=
  congrArg String.data h

/-- No positive natural prints like zero. -/
theorem repr_pos_ne_repr_zero (n : Nat) (hn : 0 < n) :
    Nat.repr n ≠ Nat.repr 0 := by
  intro h
  rw [repr_eq_digits n hn] at h
  have h0 : Nat.repr 0 = (['0'] : List Char).asString := rfl
  rw [h0] at h
  have h1 := asString_injective h
  have h2 : (Nat.digits 10 n).map Nat.digitChar = ['0'] := by
    have h3 := congrArg List.reverse h1
    simpa using h3
  have hdc : Nat.digitChar 0 = '0' := rfl
  have h3 : Nat.digits 10 n = [0] := by
    refine map_digitChar_injOn _ _
      (fun d hd => Nat.digits_lt_base (by norm_num) hd) ?_ ?_
    · intro d hd
      simp at hd
      omega
    · simpa [hdc] using h2
  have h4 := Nat.ofDigits_digits 10 n
  rw [h3] at h4
  simp [Nat.ofDigits] at h4
  omega

/-- Decimal printing of naturals is injective. -/
theorem Nat_repr_injective : Function.Injective Nat.repr := by
  intro m n h
  rcases Nat.eq_zero_or_pos m with hm | hm
  · rcases Nat.eq_zero_or_pos n with hn | hn
    · omega
    · subst hm
      exact absurd h.symm (repr_pos_ne_repr_zero n hn)
  · rcases Nat.eq_zero_or_pos n with hn | hn
    · subst hn
      exact absurd h (repr_pos_ne_repr_zero m hm)
    · rw [repr_eq_digits m hm, repr_eq_digits n hn] at h
      have h1 := asString_injective h
      have h2 : (Nat.digits 10 m).map Nat.digitChar =
          (Nat.digits 10 n).map Nat.digitChar := by
        have h3 := congrArg List.reverse h1
        simpa using h3
      have h3 := map_digitChar_injOn _ _
        (fun d hd => Nat.digits_lt_base (by norm_num) hd)
        (fun d hd => Nat.digits_lt_base (by norm_num) hd) h2
      have hm2 := Nat.ofDigits_digits 10 m
      have hn2 := Nat.ofDigits_digits 10 n
      rw [h3] at hm2
      rw [hn2] at hm2
      exact hm2.symm

/-- Appending on the left of a string is cancellative. -/
theorem string_append_left_cancel {s t u : String} (h : s ++ t = s ++ u) :
    t = u := by
  have hd := congrArg String.data h
  simp only [String.data_append] at hd
  have h2 := List.append_cancel_left hd
  exact congrArg List.asString h2

/-- The slug candidates of a fixed base are pairwise distinct. -/
theorem slugCand_injective (base : String) :
    Function.Injective (slugCand base) := by
  intro i j h
  cases i with
  | zero =>
    cases j with
    | zero => rfl
    | succ j =>
      exfalso
      have hlen := congrArg String.length h
      have hone : ("-" : String).length = 1 := rfl
      simp [slugCand, String.length_append, hone] at hlen
      omega
  | succ i =>
    cases j with
    | zero =>
      exfalso
      have hlen := congrArg String.length h
      have hone : ("-" : String).length = 1 := rfl
      simp [slugCand, String.length_append, hone] at hlen
      omega
    | succ j =>
      simp only [slugCand] at h
      have h2 := Nat_repr_injective (string_append_left_cancel h)
      omega

/-- Pigeonhole: among the first `existing.length + 1` slug candidates at least
one is unused. -/
theorem exists_fresh_slug (base : String) (existing : List String) :
    ∃ i, i < existing.length + 1 ∧ slugCand base i ∉ existing := by
  by_contra hc
  push_neg at hc
  have hnd : ((List.range (existing.length + 1)).map (slugCand base)).Nodup :=
    (List.nodup_range _).map (slugCand_injective base)
  have hsub : ((List.range (existing.length + 1)).map (slugCand base)) ⊆
      existing := by
    intro s hs
    simp only [List.mem_map, List.mem_range] at hs
    obtain ⟨i, hi, rfl⟩ := hs
    exact hc i hi
  have hle := (hnd.subperm hsub).length_le
  simp at hle

/-- The uniqueness-retry loop returns the first unused candidate at or after
its starting point, provided an unused one lies within the fuel. -/
theorem slugLoop_spec (base : String) (existing : List String) :
    ∀ (fuel k : Nat),
      (∃ i, i < fuel ∧ slugCand base (k + i) ∉ existing) →
      ∃ i, slugLoop base existing fuel (slugCand base k) (k + 1) =
            slugCand base (k + i) ∧
          slugCand base (k + i) ∉ existing ∧
          ∀ j, j < i → slugCand base (k + j) ∈ existing := by
  intro fuel
  induction fuel with
  | zero =>
    intro k h
    obtain ⟨i, hi, _⟩ := h
    exact absurd hi (Nat.not_lt_zero i)
  | succ fuel ih =>
    intro k h
    obtain ⟨i, hif, hfree⟩ := h
    simp only [slugLoop]
    by_cases hmem : slugCand base k ∈ existing
    · rw [if_pos hmem]
      have hstep : (base ++ "-" ++ Nat.repr (k + 1)) = slugCand base (k + 1) :=
        rfl
      rw [hstep]
      have hex : ∃ i, i < fuel ∧ slugCand base ((k + 1) + i) ∉ existing := by
        cases i with
        | zero => exact absurd hmem (by simpa using hfree)
        | succ i2 =>
          refine ⟨i2, by omega, ?_⟩
          have harith : k + 1 + i2 = k + (i2 + 1) := by omega
          rw [harith]
          exact hfree
      obtain ⟨i2, heq, hfree2, hall2⟩ := ih (k + 1) hex
      refine ⟨i2 + 1, ?_, ?_, ?_⟩
      · have harith : k + (i2 + 1) = (k + 1) + i2 := by omega
        rw [harith]
        exact heq
      · have harith : k + (i2 + 1) = (k + 1) + i2 := by omega
        rw [harith]
        exact hfree2
      · intro j hj
        cases j with
        | zero => simpa using hmem
        | succ j2 =>
          have harith : k + (j2 + 1) = (k + 1) + j2 := by omega
          rw [harith]
          exact hall2 j2 (by omega)
    · rw [if_neg hmem]
      refine ⟨0, by rw [Nat.add_zero], by simpa using hmem, ?_⟩
      intro j hj
      exact absurd hj (Nat.not_lt_zero j)

/-- Full characterization of `generate_slug`: it returns the first candidate
of the sequence base, base-1, base-2, … that no existing post uses. -/
theorem generate_slug_spec (base : String) (existing : List String) :
    ∃ i, generate_slug base existing = slugCand base i ∧
      slugCand base i ∉ existing ∧ ∀ j, j < i → slugCand base j ∈ existing := by
  obtain ⟨i, hi, hfree⟩ := exists_fresh_slug base existing
  have h := slugLoop_spec base existing (existing.length + 1) 0
    ⟨i, hi, by simpa using hfree⟩
  obtain ⟨i2, heq, hfree2, hall2⟩ := h
  refine ⟨i2, ?_, by simpa using hfree2, fun j hj => by simpa using hall2 j hj⟩
  simpa using heq

/-- Two strings with the same character data are equal. -/
theorem string_eq_of_data {s t : String} (h : s.data = t.data) : s = t :=
  congrArg List.asString h

/-- Against an empty slug table the base slug itself is returned. -/
theorem generate_slug_empty (base : String) : generate_slug base [] = base := by
  obtain ⟨i, heq, _, hall⟩ := generate_slug_spec base []
  cases i with
  | zero => exact heq
  | succ i2 =>
    exact absurd (hall 0 (Nat.succ_pos i2)) (by simp)

/-- When only the base slug itself is taken, the first retry wins. -/
theorem generate_slug_single (base : String) :
    generate_slug base [base] = base ++ "-1" := by
  obtain ⟨i, heq, hfree, hall⟩ := generate_slug_spec base [base]
  have hne : base ++ "-" ++ Nat.repr 1 ≠ base := by
    intro hcontra
    have hlen := congrArg String.length hcontra
    have hone : ("-" : String).length = 1 := rfl
    have hrone : (Nat.repr 1).length = 1 := rfl
    simp [String.length_append, hone, hrone] at hlen
    omega
  have hi0 : i ≠ 0 := by
    intro hz
    subst hz
    exact hfree (by simp [slugCand])
  have hi2 : i < 2 := by
    by_contra hge
    have h1 := hall 1 (by omega)
    simp only [slugCand, List.mem_singleton] at h1
    exact hne h1
  have hi1 : i = 1 := by omega
  subst hi1
  rw [heq]
  have hr : Nat.repr 1 = "1" := rfl
  show base ++ "-" ++ Nat.repr 1 = base ++ "-1"
  rw [hr]
  apply string_eq_of_data
  have hdata : ("-" : String).data ++ ("1" : String).data =
      ("-1" : String).data := rfl
  rw [String.data_append, String.data_append, String.data_append,
    List.append_assoc, hdata]

/-- C2: `Post.generate_slug` returns the slugified title itself when no
existing post uses that slug, and otherwise the first candidate base-1,
base-2, … that no existing post uses; the assigned slug is never equal to any
pre-existing slug, and creating two posts with identical titles from an empty
store yields slugs s and s-1. -/
theorem C2_generate_slug (base : String) (existing : List String) :
    generate_slug base existing ∉ existing ∧
    (base ∉ existing → generate_slug base existing = base) ∧
    (base ∈ existing →
      ∃ i, 0 < i ∧ generate_slug base existing = base ++ "-" ++ Nat.repr i ∧
        (base ++ "-" ++ Nat.repr i) ∉ existing ∧
        ∀ j, 0 < j → j < i → (base ++ "-" ++ Nat.repr j) ∈ existing) ∧
    (∀ (form : PostForm) (a1 a2 i1 i2 t1 t2 : Nat) (u1 u2 : String) r1,
      create_post [] [] form a1 i1 t1 u1 = some r1 →
      ∃ r2, create_post r1.2.1 r1.2.2 form a2 i2 t2 u2 = some r2 ∧
        r1.1.slug = slugify form.title ∧
        r2.1.slug = slugify form.title ++ "-1") := by
  obtain ⟨i, heq, hfree, hall⟩ := generate_slug_spec base existing
  refine ⟨heq ▸ hfree, ?_, ?_, ?_⟩
  · intro hb
    cases i with
    | zero => exact heq
    | succ i2 =>
      exact absurd (by simpa [slugCand] using hall 0 (Nat.succ_pos i2)) hb
  · intro hb
    cases i with
    | zero => exact absurd hb (by simpa [slugCand] using hfree)
    | succ i2 =>
      refine ⟨i2 + 1, Nat.succ_pos i2, heq, hfree, ?_⟩
      intro j hj0 hji
      obtain ⟨j2, rfl⟩ : ∃ j2, j = j2 + 1 := ⟨j - 1, by omega⟩
      exact hall (j2 + 1) hji
  · intro form a1 a2 i1 i2 t1 t2 u1 u2 r1 h1
    have hv : validate_post_form form = true := by
      by_contra hv
      simp [create_post, Bool.of_not_eq_true hv] at h1
    rw [create_post, hv, if_pos rfl] at h1
    have hr1 : r1 = create_post_body [] [] form a1 i1 t1 u1 :=
      (Option.some.injEq _ _ ▸ h1).symm
    have hslug1 : r1.1.slug = slugify form.title := by
      rw [hr1]
      show generate_slug (slugify form.title) ([].map Post.slug) = _
      exact generate_slug_empty _
    have hposts : r1.2.1.map Post.slug = [slugify form.title] := by
      rw [hr1]
      show ([] ++ [(create_post_body [] [] form a1 i1 t1 u1).1]).map Post.slug
        = _
      rw [List.nil_append, List.map_singleton, ← hr1, hslug1]
    refine ⟨create_post_body r1.2.1 r1.2.2 form a2 i2 t2 u2, ?_, hslug1, ?_⟩
    · rw [create_post, hv, if_pos rfl]
    · show generate_slug (slugify form.title) (r1.2.1.map Post.slug) = _
      rw [hposts]
      exact generate_slug_single _

/-- Witness for C2 at a concrete input: inserting the slug "post" next to an
existing post with slug "post" yields "post-1". -/
theorem C2_generate_slug_witness :
    generate_slug "post" ["post"] ∉ ["post"] :=
  (C2_generate_slug "post" ["post"]).1

/-- C3: an accepted edit never modifies the slug, even when the title
changes. -/
theorem C3_edit_preserves_slug (post : Post) (tags : List Tag)
    (form : PostForm) (now : Nat) (uuid : String) (post2 : Post)
    (tags2 : List Tag) (h : edit_post post tags form now uuid =
      some (post2, tags2)) :
    post2.slug = post.slug := by
  unfold edit_post at h
  split at h
  · have h2 : (post2, tags2) = edit_post_body post tags form now uuid :=
      (Option.some.injEq _ _ ▸ h).symm
    have h3 : post2 = (edit_post_body post tags form now uuid).1 := by
      rw [← h2]
    rw [h3]
    rfl
  · exact absurd h (by simp)

/-- Witness for C3: a concrete edit that changes the title leaves the slug
"hi" in place. -/
theorem C3_edit_preserves_slug_witness :
    edit_post exPost [] c8Form 5 "u" =
      some ((edit_post_body exPost [] c8Form 5 "u").1,
        (edit_post_body exPost [] c8Form 5 "u").2) ∧
    (edit_post_body exPost [] c8Form 5 "u").1.slug = exPost.slug :=
  ⟨rfl, C3_edit_preserves_slug exPost [] c8Form 5 "u" _ _ rfl⟩

/-- C1 counterexample: a post created as a draft, published through
toggle-publish at time 1 (published_at = 1), unpublished at time 2
(published_at stays 1), and then re-published through an accepted edit at
time 3 gets its published_at overwritten to 3 — so published_at is not set
exactly once and is changed after the first false-to-true transition. -/
theorem C1_counterexample :
    c1p1.is_published = true ∧
    c1p1.published_at = some 1 ∧
    c1p2.is_published = false ∧
    c1p2.published_at = some 1 ∧
    edit_post c1p2 [] exPubForm 3 "u" = some (c1p3, []) ∧
    c1p3.is_published = true ∧
    c1p3.published_at = some 3 := by
  refine ⟨rfl, rfl, rfl, rfl, rfl, rfl, rfl⟩

/-- C1 amended: published_at is never cleared — an edit that does not publish,
an edit of an already-published post, and toggle-publish of a post whose
timestamp is set all leave published_at unchanged, and unpublishing keeps it;
Create stamps it exactly when the post is created published; toggle-publish
stamps it only when unset; but an edit that transitions an unpublished post to
published always stamps published_at with the current time, overwriting any
earlier value. -/
theorem C1_published_at_amended (post : Post) (posts : List Post)
    (tags : List Tag) (form : PostForm) (aid id now : Nat) (uuid : String) :
    (form.is_published = false →
      ((edit_post_body post tags form now uuid).1).published_at =
        post.published_at) ∧
    (post.is_published = true →
      ((edit_post_body post tags form now uuid).1).published_at =
        post.published_at) ∧
    (post.is_published = false → form.is_published = true →
      ((edit_post_body post tags form now uuid).1).published_at = some now) ∧
    (∀ t, post.published_at = some t →
      (toggle_publish post now).published_at = some t) ∧
    (post.is_published = false → post.published_at = none →
      (toggle_publish post now).published_at = some now) ∧
    (post.is_published = true →
      (toggle_publish post now).published_at = post.published_at) ∧
    ((create_post_body posts tags form aid id now uuid).1.published_at =
      if form.is_published then some now else none) := by
  refine ⟨?_, ?_, ?_, ?_, ?_, ?_, rfl⟩
  · intro h
    simp [edit_post_body, h]
  · intro h
    simp [edit_post_body, h]
  · intro h1 h2
    simp [edit_post_body, h1, h2]
  · intro t h
    simp [toggle_publish, h]
  · intro h1 h2
    simp [toggle_publish, h1, h2]
  · intro h
    simp [toggle_publish, h]

/-- Witness for the amended C1 at a concrete input: an edit publishing a
draft stamps the edit time. -/
theorem C1_published_at_amended_witness :
    exPost.is_published = false ∧ exPubForm.is_published = true ∧
    ((edit_post_body exPost [] exPubForm 7 "u").1).published_at = some 7 :=
  ⟨rfl, rfl,
    (C1_published_at_amended exPost [] [] exPubForm 1 1 7 "u").2.2.1 rfl rfl⟩

/-- The tag resolved by `get_or_create` carries the lowercased, trimmed
name, whether it was found or freshly created. -/
theorem get_or_create_name (name : String) (tags : List Tag) :
    (get_or_create name tags).1.name = normalize_tag_name name := by
  unfold get_or_create
  cases hf : tags.find? (fun t => t.name == normalize_tag_name name) with
  | some t =>
    show t.name = normalize_tag_name name
    have hp := List.find?_some hf
    exact eq_of_beq hp
  | none => rfl

/-- After a `get_or_create` call, looking up the normalized name in the
resulting tag table finds exactly the resolved tag. -/
theorem get_or_create_find (name : String) (tags : List Tag) :
    (get_or_create name tags).2.find?
        (fun t => t.name == normalize_tag_name name) =
      some (get_or_create name tags).1 := by
  unfold get_or_create
  cases hf : tags.find? (fun t => t.name == normalize_tag_name name) with
  | some t =>
    exact hf
  | none =>
    show (tags ++ [Tag.mk (normalize_tag_name name) (slugify name)]).find?
        (fun t => t.name == normalize_tag_name name) =
      some (Tag.mk (normalize_tag_name name) (slugify name))
    simp [List.find?_append, hf, List.find?]

/-- When the lookup succeeds, `get_or_create` returns the found tag and
leaves the table unchanged. -/
theorem get_or_create_found (name : String) (tags : List Tag) (t : Tag)
    (h : tags.find? (fun x => x.name == normalize_tag_name name) = some t) :
    get_or_create name tags = (t, tags) := by
  unfold get_or_create
  rw [h]

/-- C4: `Tag.get_or_create` is case- and whitespace-insensitive — two names
equal after lowercasing and trimming resolve to the same tag, the second call
creates nothing new, and the stored name of the resolved tag is the lowercased,
trimmed form. -/
theorem C4_get_or_create_insensitive (n1 n2 : String) (tags : List Tag)
    (h : normalize_tag_name n1 = normalize_tag_name n2) :
    (get_or_create n2 (get_or_create n1 tags).2).1 =
      (get_or_create n1 tags).1 ∧
    (get_or_create n2 (get_or_create n1 tags).2).2 =
      (get_or_create n1 tags).2 ∧
    (get_or_create n1 tags).1.name = normalize_tag_name n1 := by
  have hfind : (get_or_create n1 tags).2.find?
      (fun t => t.name == normalize_tag_name n2) =
      some (get_or_create n1 tags).1 := by
    rw [← h]
    exact get_or_create_find n1 tags
  have h2 := get_or_create_found n2 (get_or_create n1 tags).2
    (get_or_create n1 tags).1 hfind
  rw [h2]
  exact ⟨rfl, rfl, get_or_create_name n1 tags⟩

/-- Witness for C4: the names "Python" and " python " resolve to the same
tag, stored as "python". -/
theorem C4_get_or_create_insensitive_witness :
    normalize_tag_name "Python" = normalize_tag_name " python " ∧
    (get_or_create " python " (get_or_create "Python" []).2).1 =
      (get_or_create "Python" []).1 ∧
    (get_or_create "Python" []).1.name = "python" :=
  ⟨rfl, (C4_get_or_create_insensitive "Python" " python " [] rfl).1,
    (C4_get_or_create_insensitive "Python" " python " [] rfl).2.2⟩

/-- C5: `save_image` returns null when the file is absent, when the filename
has no dot, or when its lowercased extension is not allowed; an accepted file
is stored under the generated name ending in the lowercased original
extension; evil.exe is rejected and photo.PNG is stored with suffix .png. -/
theorem C5_save_image (filename uuid : String) :
    save_image none uuid = none ∧
    (filename.data.contains '.' = false →
      save_image (some filename) uuid = none) ∧
    (ALLOWED_EXTENSIONS.contains (py_lower (file_ext filename)) = false →
      save_image (some filename) uuid = none) ∧
    (allowed_file filename = true →
      save_image (some filename) uuid =
        some (uuid ++ "." ++ py_lower (file_ext filename))) ∧
    save_image (some "evil.exe") uuid = none ∧
    (∃ stored, save_image (some "photo.PNG") uuid = some stored ∧
      stored = uuid ++ ".png") := by
  have hevil : allowed_file "evil.exe" = false := by decide
  have hphoto : allowed_file "photo.PNG" = true := by decide
  have hext : py_lower (file_ext "photo.PNG") = "png" := by decide
  refine ⟨rfl, ?_, ?_, ?_, ?_, ?_⟩
  · intro h
    have ha : allowed_file filename = false := by
      unfold allowed_file
      rw [h, Bool.false_and]
    simp [save_image, ha]
  · intro h
    have ha : allowed_file filename = false := by
      unfold allowed_file
      rw [h, Bool.and_false]
    simp [save_image, ha]
  · intro h
    simp [save_image, h]
  · simp [save_image, hevil]
  · refine ⟨uuid ++ "." ++ "png", by simp [save_image, hphoto, hext], ?_⟩
    apply string_eq_of_data
    have hdata : ("." : String).data ++ ("png" : String).data =
        (".png" : String).data := rfl
    rw [String.data_append, String.data_append, List.append_assoc, hdata]
    rw [String.data_append]

/-- Witness for C5: a concrete accepted upload a.JPG is stored as u.jpg. -/
theorem C5_save_image_witness :
    allowed_file "a.JPG" = true ∧
    save_image (some "a.JPG") "u" =
      some ("u" ++ "." ++ py_lower (file_ext "a.JPG")) :=
  ⟨by decide, (C5_save_image "a.JPG" "u").2.2.2.1 (by decide)⟩

/-- Incrementing the views of a post changes neither its slug nor its
publication flag, so the view-post lookup still matches it. -/
theorem view_match_increment (slug : String) (p : Post) :
    view_match slug (increment_views p) = view_match slug p := rfl

/-- One public view: the store is updated and the matched post has been
incremented. -/
theorem view_post_step (posts : List Post) (slug : String) (p : Post)
    (h : posts.find? (view_match slug) = some p) :
    view_post posts slug =
      some (posts.map
        fun q => if view_match slug q then increment_views q else q) ∧
    (posts.map
        fun q => if view_match slug q then increment_views q else q).find?
      (view_match slug) = some (increment_views p) := by
  constructor
  · unfold view_post
    rw [h]
  · rw [List.find?_map]
    have hcomp : (view_match slug) ∘
        (fun q => if view_match slug q then increment_views q else q) =
        view_match slug := by
      funext q
      cases hq : view_match slug q with
      | true => simp [Function.comp, hq, view_match_increment]
      | false => simp [Function.comp, hq]
    rw [hcomp, h]
    have hp := List.find?_some h
    simp [Option.map, hp]

/-- Iterating the increment adds exactly the iteration count to the counter,
treating an unset counter as 0. -/
theorem iterate_increment_views (p : Post) (n : Nat) :
    (increment_views^[n] p).views.getD 0 = p.views.getD 0 + n := by
  induction n with
  | zero => simp
  | succ n ih =>
    rw [Function.iterate_succ_apply']
    show (some ((increment_views^[n] p).views.getD 0 + 1)).getD 0 = _
    rw [Option.getD_some, ih]
    omega

/-- Viewing the same slug n times succeeds and leaves the matched post
incremented n times. -/
theorem viewN_spec (slug : String) (n : Nat) :
    ∀ (posts : List Post) (p : Post),
      posts.find? (view_match slug) = some p →
      ∃ posts2, viewN slug n posts = some posts2 ∧
        posts2.find? (view_match slug) = some (increment_views^[n] p) := by
  induction n with
  | zero =>
    intro posts p h
    exact ⟨posts, rfl, by simpa using h⟩
  | succ n ih =>
    intro posts p h
    obtain ⟨hv, hfind⟩ := view_post_step posts slug p h
    obtain ⟨posts2, hvn, hfind2⟩ := ih _ _ hfind
    refine ⟨posts2, ?_, ?_⟩
    · show (match view_post posts slug with
        | none => none
        | some posts1 => viewN slug n posts1) = some posts2
      rw [hv]
      exact hvn
    · rw [hfind2, ← Function.iterate_succ_apply]

/-- C6: each public view of a published post increments its views counter by
exactly 1 (an unset counter counting as 0), the increment never decreases the
counter, and viewing a post n times in sequence increases its views by
exactly n. -/
theorem C6_view_counting (posts : List Post) (slug : String) (p : Post)
    (n : Nat) :
    (increment_views p).views.getD 0 = p.views.getD 0 + 1 ∧
    p.views.getD 0 ≤ (increment_views p).views.getD 0 ∧
    (posts.find? (view_match slug) = some p →
      ∃ posts2, viewN slug n posts = some posts2 ∧
        posts2.find? (view_match slug) = some (increment_views^[n] p) ∧
        (increment_views^[n] p).views.getD 0 = p.views.getD 0 + n) := by
  have h1 : (increment_views p).views.getD 0 = p.views.getD 0 + 1 := rfl
  refine ⟨h1, ?_, ?_⟩
  · rw [h1]
    exact Nat.le_succ _
  · intro h
    obtain ⟨posts2, hvn, hfind⟩ := viewN_spec slug n posts p h
    exact ⟨posts2, hvn, hfind, iterate_increment_views p n⟩

/-- Witness for C6: three views of the concrete published post take its views
from 0 to 3. -/
theorem C6_view_counting_witness :
    [exPubPost].find? (view_match "hi") = some exPubPost ∧
    ∃ posts2, viewN "hi" 3 [exPubPost] = some posts2 ∧
      posts2.find? (view_match "hi") = some (increment_views^[3] exPubPost) ∧
      (increment_views^[3] exPubPost).views.getD 0 =
        exPubPost.views.getD 0 + 3 :=
  ⟨rfl, (C6_view_counting [exPubPost] "hi" exPubPost 3).2.2 rfl⟩

/-- C7: deleting a post removes the post row and all of its rows in the
post_tags association table, leaves every other row in place, and leaves the
tags table entirely intact. -/
theorem C7_delete_post (db : DB) (pid : Nat) (db2 : DB)
    (h : delete_post db pid = some db2) :
    db2.tags = db.tags ∧
    (∀ p ∈ db2.posts, p.id ≠ pid) ∧
    (∀ p ∈ db.posts, p.id ≠ pid → p ∈ db2.posts) ∧
    (∀ pt ∈ db2.post_tags, pt.1 ≠ pid) ∧
    (∀ pt ∈ db.post_tags, pt.1 ≠ pid → pt ∈ db2.post_tags) := by
  unfold delete_post at h
  split at h
  · exact absurd h (by simp)
  · injection h with h2
    subst h2
    refine ⟨rfl, ?_, ?_, ?_, ?_⟩
    · intro p hp
      have hm := (List.mem_filter.mp hp).2
      simpa [bne_iff_ne] using hm
    · intro p hp hne
      exact List.mem_filter.mpr ⟨hp, by simpa [bne_iff_ne] using hne⟩
    · intro pt hpt
      have hm := (List.mem_filter.mp hpt).2
      simpa [bne_iff_ne] using hm
    · intro pt hpt hne
      exact List.mem_filter.mpr ⟨hpt, by simpa [bne_iff_ne] using hne⟩

/-- Witness for C7: deleting the only post leaves the now-orphaned tag row in
place while the association row disappears. -/
theorem C7_delete_post_witness :
    delete_post exDB 1 = some exDB2 ∧ exDB2.tags = exDB.tags :=
  ⟨rfl, (C7_delete_post exDB 1 exDB2 rfl).1⟩

/-- C8 counterexample: a submission with an empty body but a valid title
passes validation, and Create builds a Post row whose content is empty — the
claim that an empty body is rejected as a validation failure is false. -/
theorem C8_counterexample :
    c8Form.content = "" ∧
    validate_post_form c8Form = true ∧
    create_post [] [] c8Form 1 1 0 "u" =
      some (create_post_body [] [] c8Form 1 1 0 "u") ∧
    (create_post_body [] [] c8Form 1 1 0 "u").1.content = "" :=
  ⟨rfl, rfl, rfl, rfl⟩

/-- C8 amended: Create validates the title (trimmed non-empty, length between
1 and 200), the excerpt (length at most 500) and the cover-image extension,
but not the body: validation is independent of the content field, creation
succeeds exactly when the other fields validate, and the created row carries
the submitted (possibly empty) body verbatim. -/
theorem C8_body_not_validated (posts : List Post) (tags : List Tag)
    (form : PostForm) (aid id now : Nat) (uuid : String) (c : String) :
    validate_post_form { form with content := c } =
      validate_post_form form ∧
    (create_post posts tags form aid id now uuid).isSome =
      validate_post_form form ∧
    (validate_post_form form = true →
      ∃ r, create_post posts tags form aid id now uuid = some r ∧
        r.1.content = form.content) := by
  refine ⟨rfl, ?_, ?_⟩
  · unfold create_post
    cases hv : validate_post_form form with
    | true => simp [hv]
    | false => simp [hv]
  · intro hv
    refine ⟨create_post_body posts tags form aid id now uuid, ?_, rfl⟩
    unfold create_post
    rw [hv]
    simp

/-- Witness for the amended C8 at a concrete input. -/
theorem C8_body_not_validated_witness :
    validate_post_form c8Form = true ∧
    ∃ r, create_post [] [] c8Form 1 1 0 "u" = some r ∧
      r.1.content = c8Form.content :=
  ⟨rfl, (C8_body_not_validated [] [] c8Form 1 1 0 "u" "x").2.2 rfl⟩

/-- C9: reading a key right after setting it returns the value just set,
whether or not the key existed, and reading an absent key returns the
supplied default. -/
theorem C9_settings_roundtrip (settings : List (String × Option String))
    (key : String) (value default : Option String) :
    SiteSettings_get key default (SiteSettings_set key value settings) =
      value ∧
    (settings.find? (fun s => s.1 == key) = none →
      SiteSettings_get key default settings = default) := by
  constructor
  · induction settings with
    | nil =>
      simp [SiteSettings_set, SiteSettings_get, List.find?]
    | cons s rest ih =>
      simp only [SiteSettings_set]
      by_cases hs : s.1 = key
      · have hb : (s.1 == key) = true := beq_iff_eq.mpr hs
        rw [hb]
        simp [SiteSettings_get, List.find?]
      · have hb : (s.1 == key) = false := by
          simpa using hs
        rw [hb]
        simp only [Bool.false_eq_true, if_false]
        simp only [SiteSettings_get, List.find?, hb] at ih ⊢
        exact ih
  · intro h
    simp [SiteSettings_get, h]

/-- Witness for C9: a set-then-get round trip on an empty store, and a get
with default on the empty store. -/
theorem C9_settings_roundtrip_witness :
    SiteSettings_get "about_title" none
      (SiteSettings_set "about_title" (some "T") []) = some "T" ∧
    SiteSettings_get "about_title" (some "D") [] = some "D" :=
  ⟨(C9_settings_roundtrip [] "about_title" (some "T") none).1,
   (C9_settings_roundtrip [] "about_title" (some "T") (some "D")).2 rfl⟩

/-- C10: login never establishes a session for a non-admin user — with the
correct username and password of a user whose is_admin flag is false, no
session is created and the user is redirected back to the login page with
the access-denied message. -/
theorem C10_login_nonadmin (users : List User) (username password : String)
    (next_page : Option String) (u : User)
    (hfind : users.find? (fun x => x.username == username) = some u)
    (hadmin : u.is_admin = false)
    (hpw : check_password u password = true) :
    login users username password next_page =
      ⟨none, "Access denied. Admin privileges required.", "auth.login"⟩ := by
  unfold login
  rw [hfind]
  simp [hpw, hadmin]

/-- Witness for C10: the concrete non-admin user bob with the correct
password is refused. -/
theorem C10_login_nonadmin_witness :
    [exUser].find? (fun x => x.username == "bob") = some exUser ∧
    exUser.is_admin = false ∧
    check_password exUser "pw" = true ∧
    login [exUser] "bob" "pw" none =
      ⟨none, "Access denied. Admin privileges required.", "auth.login"⟩ :=
  ⟨rfl, rfl, rfl,
    C10_login_nonadmin [exUser] "bob" "pw" none exUser rfl rfl rfl⟩

end MyBlog
